import Mathlib

/-
Verification of the logger facade (package logger, src/logger.go).

Shallow embedding conventions:
  - Go interface\x7b\x7d values carried in messages and fields are modelled by
    the inductive `Val` (string and integer values suffice for every claim).
  - Go map[string]interface\x7b\x7d (`Fields`) is modelled as an association
    list; lookup is by key, first match.
  - The ambient inputs read by the Go code - the global `isInit` flag, the
    global `mylog`, the caller frame returned by runtime.Caller and the
    filesystem consulted by os.Stat - are passed as explicit parameters
    (`isInit : Bool`, a `LoggerState`, `file`/`line`, `fs : String → Bool`).
  - An emit call's observable effect is an `Emit` value: what was handed to
    the zap sugar backend, or the text written to standard output by the
    pre-initialization fallback, or silence.
-/

namespace Logger

/-- A Go interface\x7b\x7d value as it occurs in log arguments and fields. -/
inductive Val where
  | str (s : String)
  | int (n : Int)
deriving DecidableEq, Repr

/-- Go fmt default rendering (%v / %+v) of a `Val`. -/
def Val.render : Val → String
  | .str s => s
  | .int n => toString n

def Val.isStr : Val → Bool
  | .str _ => true
  | .int _ => false

/-- Go map[string]interface\x7b\x7d, the `Fields` type of src/logger.go:57. -/
abbrev Fields := List (String × Val)

/-- Lookup by key (Go map indexing). -/
def Fields.lookup : Fields → String → Option Val
  | [], _ => none
  | (k, v) :: rest, key => if k = key then some v else Fields.lookup rest key

/-- src/logger.go:69-71.  The current revision's Fields merge: the receiver is
ignored and the argument is returned as-is (`return newFields`). -/
def Fields.WithFields (_fields newFields : Fields) : Fields := newFields

/-- Go strings.Join(elems, sep). -/
def stringsJoin (elems : List String) (sep : String) : String :=
  match elems with
  | [] => ""
  | e :: rest => rest.foldl (fun acc x => acc ++ sep ++ x) e

/-- Go fmt.Println(args...): operands space-separated, trailing newline. -/
def fmtPrintln (args : List Val) : String :=
  stringsJoin (args.map Val.render) " " ++ "\n"

/-- Go fmt.Print(args...): a space only between two non-string operands,
no trailing newline. -/
def fmtPrint : List Val → String
  | [] => ""
  | [v] => Val.render v
  | v :: w :: rest =>
    Val.render v ++ (if v.isStr || w.isStr then "" else " ") ++ fmtPrint (w :: rest)

/-- Go fmt.Sprintf restricted to the directives this code path can meet:
%s, %d, %v (each consuming one argument) and %%; other characters are
literal.  A directive with no argument left is kept literally. -/
def sprintfChars : List Char → List Val → String
  | [], _ => ""
  | '%' :: 's' :: rest, v :: vs => Val.render v ++ sprintfChars rest vs
  | '%' :: 'd' :: rest, v :: vs => Val.render v ++ sprintfChars rest vs
  | '%' :: 'v' :: rest, v :: vs => Val.render v ++ sprintfChars rest vs
  | '%' :: '%' :: rest, vs => "%" ++ sprintfChars rest vs
  | c :: rest, vs => String.singleton c ++ sprintfChars rest vs

def sprintf (format : String) (args : List Val) : String :=
  sprintfChars format.data args

/-- Go type Level uint32 (src/logger.go:73); the iota values fit in Nat. -/
abbrev Level := Nat

def PanicLevel : Level := 0
def FatalLevel : Level := 1
def ErrorLevel : Level := 2
def WarnLevel : Level := 3
def InfoLevel : Level := 4
def DebugLevel : Level := 5
def TraceLevel : Level := 6

/-- The zapcore severities InitLogger selects between. -/
inductive ZapLevel where
  | debug
  | info
  | warn
  | error
deriving DecidableEq, Repr

/-- The wrapped zap.Logger, kept abstract: the name segments accumulated by
Named, the structured attributes accumulated by With, and the core's
minimum severity fixed by zapcore.NewCore. -/
structure ZapLogger where
  names : List String
  attached : Fields
  coreLevel : ZapLevel
deriving DecidableEq, Repr

/-- zap (\*Logger).Named(s): appends a name segment. -/
def ZapLogger.Named (l : ZapLogger) (s : String) : ZapLogger :=
  { l with names := l.names ++ [s] }

/-- zap (\*Logger).With(fields...): appends structured attributes. -/
def ZapLogger.With (l : ZapLogger) (fs : Fields) : ZapLogger :=
  { l with attached := l.attached ++ fs }

/-- src/logger.go:116-122. -/
structure MyLogger where
  log : ZapLogger
  level : Level
  prefixChain : List String
  fields : Fields
  codeLine : Bool
deriving DecidableEq, Repr

/-- Go strings.Split(s, "/") on the character list: a separator-free run per
segment, with empty segments kept, as strings.Split produces them. -/
def splitSlash : List Char → List (List Char)
  | [] => [[]]
  | c :: rest =>
    if c = '/' then [] :: splitSlash rest
    else
      match splitSlash rest with
      | [] => [[c]]
      | h :: t => (c :: h) :: t

/-- Go strings.Split(file, "/") and taking the last element, as the code-info
helpers do. -/
def shortFile (file : String) : String :=
  String.mk ((splitSlash file.data).getLastD [])

/-- The "[short-file:line] " caller marker text. -/
def codeMarker (file : String) (line : Nat) : String :=
  "[" ++ shortFile file ++ ":" ++ toString line ++ "] "

/-- src/logger.go:131-139, method addCodeInfo.  When codeLine is set the named
return r is overwritten with the marker-prefixed format; when it is not set
the body is skipped and r keeps its zero value "", so the format string is
lost, not passed through. -/
def MyLogger.addCodeInfo (l : MyLogger) (file : String) (line : Nat)
    (format : String) : String :=
  if l.codeLine then codeMarker file line ++ format else ""

/-- src/logger.go:140-148, method appendCodeInfo.  When codeLine is set the
source binds r to the incoming args and then assigns the marker-prefixed
slice to the local `args`, never to r, so r stays the original args; when
codeLine is not set r keeps its nil zero value. -/
def MyLogger.appendCodeInfo (l : MyLogger) (_file : String) (_line : Nat)
    (args : List Val) : List Val :=
  if l.codeLine then args else []

/-- src/logger.go:149-155, the free addCodeInfo: unconditionally prefixes the
caller marker. -/
def addCodeInfo (file : String) (line : Nat) (format : String) : String :=
  codeMarker file line ++ format

/-- src/logger.go:156-162, the free appendCodeInfo: r is bound to args before
the marker-prefixed slice is assigned to the local `args`, so the original
args come back. -/
def appendCodeInfo (_file : String) (_line : Nat) (args : List Val) : List Val :=
  args

/-- The severity a message is handed to the zap sugar logger at. -/
inductive Sev where
  | debug
  | info
  | warn
  | error
  | panic
  | fatal
deriving DecidableEq, Repr

/-- What an emit call forwards: a plain argument list (Sugar().Info(args...))
or a format template with substitution arguments (Sugar().Infof(f, args...)). -/
inductive Payload where
  | args (vals : List Val)
  | fmt (format : String) (vals : List Val)
deriving DecidableEq, Repr

/-- The observable effect of one emit call. -/
inductive Emit where
  | backend (sev : Sev) (msg : Payload)
  | stdout (text : String)
  | silent
deriving DecidableEq, Repr

def Emit.isBackend : Emit → Bool
  | .backend _ _ => true
  | _ => false

/-- src/logger.go:124-130, method Print: when initialized the args go to the
sugar logger untouched (no code-info helper on this path); otherwise
fmt.Println. -/
def MyLogger.Print (_l : MyLogger) (isInit : Bool) (args : List Val) : Emit :=
  if isInit then .backend .info (.args args) else .stdout (fmtPrintln args)

/-- src/logger.go:163-169, method Printf. -/
def MyLogger.Printf (l : MyLogger) (isInit : Bool) (file : String) (line : Nat)
    (format : String) (args : List Val) : Emit :=
  if isInit then .backend .info (.fmt (l.addCodeInfo file line format) args)
  else .stdout (sprintf (l.addCodeInfo file line format ++ "\r\n") args)

/-- src/logger.go:170-176, method Println. -/
def MyLogger.Println (l : MyLogger) (isInit : Bool) (file : String) (line : Nat)
    (args : List Val) : Emit :=
  if isInit then .backend .info (.args (l.appendCodeInfo file line args))
  else .stdout (fmtPrintln args)

/-- src/logger.go:177-185, method Trace: inside the initialized branch the
message only goes out when the instance level is exactly TraceLevel, and then
at the backend's Debug severity. -/
def MyLogger.Trace (l : MyLogger) (isInit : Bool) (file : String) (line : Nat)
    (args : List Val) : Emit :=
  if isInit then
    if l.level = TraceLevel then .backend .debug (.args (l.appendCodeInfo file line args))
    else .silent
  else .stdout (fmtPrintln args)

/-- src/logger.go:186-194, method Tracef. -/
def MyLogger.Tracef (l : MyLogger) (isInit : Bool) (file : String) (line : Nat)
    (format : String) (args : List Val) : Emit :=
  if isInit then
    if l.level = TraceLevel then .backend .debug (.fmt (l.addCodeInfo file line format) args)
    else .silent
  else .stdout (sprintf (l.addCodeInfo file line format ++ "\r\n") args)

/-- src/logger.go:196-202, method Debug. -/
def MyLogger.Debug (l : MyLogger) (isInit : Bool) (file : String) (line : Nat)
    (args : List Val) : Emit :=
  if isInit then .backend .debug (.args (l.appendCodeInfo file line args))
  else .stdout (fmtPrintln args)

/-- src/logger.go:203-209, method Debugf. -/
def MyLogger.Debugf (l : MyLogger) (isInit : Bool) (file : String) (line : Nat)
    (format : String) (args : List Val) : Emit :=
  if isInit then .backend .debug (.fmt (l.addCodeInfo file line format) args)
  else .stdout (sprintf (l.addCodeInfo file line format ++ "\r\n") args)

/-- src/logger.go:210-216, method Info. -/
def MyLogger.Info (l : MyLogger) (isInit : Bool) (file : String) (line : Nat)
    (args : List Val) : Emit :=
  if isInit then .backend .info (.args (l.appendCodeInfo file line args))
  else .stdout (fmtPrintln args)

/-- src/logger.go:217-223, method Infof. -/
def MyLogger.Infof (l : MyLogger) (isInit : Bool) (file : String) (line : Nat)
    (format : String) (args : List Val) : Emit :=
  if isInit then .backend .info (.fmt (l.addCodeInfo file line format) args)
  else .stdout (sprintf (l.addCodeInfo file line format ++ "\r\n") args)

/-- src/logger.go:224-230, method Warn. -/
def MyLogger.Warn (l : MyLogger) (isInit : Bool) (file : String) (line : Nat)
    (args : List Val) : Emit :=
  if isInit then .backend .warn (.args (l.appendCodeInfo file line args))
  else .stdout (fmtPrintln args)

/-- src/logger.go:231-237, method Warnf. -/
def MyLogger.Warnf (l : MyLogger) (isInit : Bool) (file : String) (line : Nat)
    (format : String) (args : List Val) : Emit :=
  if isInit then .backend .warn (.fmt (l.addCodeInfo file line format) args)
  else .stdout (sprintf (l.addCodeInfo file line format ++ "\r\n") args)

/-- src/logger.go:238-244, method Panic. -/
def MyLogger.Panic (l : MyLogger) (isInit : Bool) (file : String) (line : Nat)
    (args : List Val) : Emit :=
  if isInit then .backend .panic (.args (l.appendCodeInfo file line args))
  else .stdout (fmtPrintln args)

/-- src/logger.go:245-251, method Panicf. -/
def MyLogger.Panicf (l : MyLogger) (isInit : Bool) (file : String) (line : Nat)
    (format : String) (args : List Val) : Emit :=
  if isInit then .backend .panic (.fmt (l.addCodeInfo file line format) args)
  else .stdout (sprintf (l.addCodeInfo file line format ++ "\r\n") args)

/-- src/logger.go:252-258, method Fatal. -/
def MyLogger.Fatal (l : MyLogger) (isInit : Bool) (file : String) (line : Nat)
    (args : List Val) : Emit :=
  if isInit then .backend .fatal (.args (l.appendCodeInfo file line args))
  else .stdout (fmtPrintln args)

/-- src/logger.go:259-265, method Error. -/
def MyLogger.Error (l : MyLogger) (isInit : Bool) (file : String) (line : Nat)
    (args : List Val) : Emit :=
  if isInit then .backend .error (.args (l.appendCodeInfo file line args))
  else .stdout (fmtPrintln args)

/-- src/logger.go:266-272, method Errorf. -/
def MyLogger.Errorf (l : MyLogger) (isInit : Bool) (file : String) (line : Nat)
    (format : String) (args : List Val) : Emit :=
  if isInit then .backend .error (.fmt (l.addCodeInfo file line format) args)
  else .stdout (sprintf (l.addCodeInfo file line format ++ "\r\n") args)

/-- src/logger.go:273-279, method Fatalf. -/
def MyLogger.Fatalf (l : MyLogger) (isInit : Bool) (file : String) (line : Nat)
    (format : String) (args : List Val) : Emit :=
  if isInit then .backend .fatal (.fmt (l.addCodeInfo file line format) args)
  else .stdout (sprintf (l.addCodeInfo file line format ++ "\r\n") args)

/-- src/logger.go:280-289, method WithPrefix: the backend gets Named(prefix),
the prefix chain gets the new segment appended; level, fields and codeLine
carry over. -/
def MyLogger.WithPrefix (l : MyLogger) (p : String) : MyLogger :=
  { log := l.log.Named p
    level := l.level
    prefixChain := l.prefixChain ++ [p]
    fields := l.fields
    codeLine := l.codeLine }

/-- src/logger.go:290-292, method Prefix: strings.Join(l.prefix, "."). -/
def MyLogger.Prefix (l : MyLogger) : String :=
  stringsJoin l.prefixChain "."

/-- src/logger.go:293-298, method Fields: a nil map is replaced by a fresh
empty one, which the association-list model does not distinguish from the
stored empty value. -/
def MyLogger.Fields (l : MyLogger) : Fields := l.fields

/-- src/logger.go:299-312, method WithFields: the backend gets every supplied
field attached via With, and the child's fields slot is set to the supplied
fields themselves - the receiver's fields are not merged in. -/
def MyLogger.WithFields (l : MyLogger) (fields : Logger.Fields) : MyLogger :=
  { log := l.log.With fields
    level := l.level
    prefixChain := l.prefixChain
    fields := fields
    codeLine := l.codeLine }

/-- src/logger.go:314-317, method SetLevel: a no-op on a value receiver. -/
def MyLogger.SetLevel (l : MyLogger) (_level : Level) : MyLogger := l

/-- src/logger.go:318-320, method GetLevel. -/
def MyLogger.GetLevel (l : MyLogger) : Level := l.level

/-- src/logger.go:321-323, method Section: the named return s keeps its zero
value, so the accessor always yields the empty string. -/
def MyLogger.Section (_l : MyLogger) : String := ""

/-- src/logger.go:324-333, method WithSection: the backend gets a
section=sec string attribute; the fields slot carries over unchanged. -/
def MyLogger.WithSection (l : MyLogger) (sec : String) : MyLogger :=
  { log := l.log.With [("section", Val.str sec)]
    level := l.level
    prefixChain := l.prefixChain
    fields := l.fields
    codeLine := l.codeLine }

/-- src/logger.go:339-348, the configuration options structure. -/
structure LoggerConfig where
  Level : String
  Path : String
  LogName : String
  MaxSize : Int
  MaxBackups : Int
  MaxAge : Int
  EnableCompress : Int
  CodeLine : Int
deriving DecidableEq, Repr

/-- src/logger.go:444-450, LogPathExists: os.Stat success on the path, with
the filesystem passed in as the predicate fs. -/
def LogPathExists (fs : String → Bool) (path : String) : Bool := fs path

structure PathResolution where
  logPath : String
  warned : Bool
deriving DecidableEq, Repr

/-- src/logger.go:350-361, the path-resolution head of InitLogger.  The warning
branch is taken when LogPathExists returns true: an accessible configured path
triggers the warning and keeps the "./" default, while an inaccessible one is
installed verbatim.  One trailing "/" is then stripped.  (On an empty resolved
path the Go slice expression panics; the model is total and leaves the empty
string unchanged, a case no claim touches.) -/
def resolveLogPath (fs : String → Bool) (path : String) : PathResolution :=
  let accessible := LogPathExists fs path
  let lp := if accessible then "./" else path
  let lp := if lp.data.getLastD ' ' = '/' then String.mk lp.data.dropLast else lp
  { logPath := lp, warned := accessible }

/-- Go strings.ToLower, for the ASCII severity names in play. -/
def toLowerStr (s : String) : String :=
  String.mk (s.data.map Char.toLower)

/-- src/logger.go:409-429, the severity-name switch of InitLogger.  The local
`level` starts at zap.InfoLevel and `myLevel` at TraceLevel; the default
branch re-assigns only `level`, so an unrecognized name leaves the facade
level at TraceLevel while the backend core level becomes Info. -/
def setupLevels (s : String) : Level × ZapLevel :=
  let t := toLowerStr s
  if t = "trace" then (TraceLevel, .debug)
  else if t = "debug" then (DebugLevel, .debug)
  else if t = "warn" then (WarnLevel, .warn)
  else if t = "info" then (InfoLevel, .info)
  else if t = "error" then (ErrorLevel, .error)
  else (TraceLevel, .info)

/-- The lumberjack.Logger literal built at src/logger.go:387-393. -/
structure LumberjackConfig where
  Filename : String
  MaxSize : Int
  MaxBackups : Int
  MaxAge : Int
  Compress : Bool
deriving DecidableEq, Repr

/-- What InitLogger writes: the globals mylog and isInit, the rotating-sink
configuration handed to lumberjack, and whether the startup warning went to
the process's default log channel. -/
structure InitResult where
  mylog : MyLogger
  isInit : Bool
  sink : LumberjackConfig
  warned : Bool
deriving DecidableEq, Repr

/-- src/logger.go:350-442, InitLogger: resolve the path, default the
zero-valued rotation numbers (size 100, backups 10, age 7), decode the two
int-encoded flags, map the severity name, and install the root MyLogger with
an empty prefix chain and empty fields. -/
def InitLogger (fs : String → Bool) (cfg : LoggerConfig) : InitResult :=
  let pr := resolveLogPath fs cfg.Path
  let maxLogSize := if cfg.MaxSize = 0 then 100 else cfg.MaxSize
  let maxBackups := if cfg.MaxBackups = 0 then 10 else cfg.MaxBackups
  let maxAge := if cfg.MaxAge = 0 then 7 else cfg.MaxAge
  let needCodeLine := cfg.CodeLine != 0
  let enableCompress := cfg.EnableCompress == 1
  let levels := setupLevels cfg.Level
  { mylog := { log := { names := [], attached := [], coreLevel := levels.2 }
               level := levels.1
               prefixChain := []
               fields := []
               codeLine := needCodeLine }
    isInit := true
    sink := { Filename := pr.logPath ++ "/" ++ cfg.LogName ++ ".log"
              MaxSize := maxLogSize
              MaxBackups := maxBackups
              MaxAge := maxAge
              Compress := enableCompress }
    warned := pr.warned }

/-- The process-wide globals read by every package-level convenience function
(src/logger.go:111-114): the singleton mylog and the isInit flag. -/
structure LoggerState where
  mylog : MyLogger
  isInit : Bool
deriving DecidableEq, Repr

/-- src/logger.go:452-458, package-level Print. -/
def Print (g : LoggerState) (file : String) (line : Nat) (args : List Val) : Emit :=
  if g.isInit then .backend .info (.args (g.mylog.appendCodeInfo file line args))
  else .stdout (fmtPrintln args)

/-- src/logger.go:459-465, package-level Printf: the initialized branch runs
the flag-gated method addCodeInfo, the fallback branch the free addCodeInfo
that always prefixes the caller marker. -/
def Printf (g : LoggerState) (file : String) (line : Nat) (format : String)
    (args : List Val) : Emit :=
  if g.isInit then .backend .info (.fmt (g.mylog.addCodeInfo file line format) args)
  else .stdout (sprintf (addCodeInfo file line format ++ "\r\n") args)

/-- src/logger.go:466-473, package-level Println: the fallback branch is
fmt.Print, with no trailing line break. -/
def Println (g : LoggerState) (file : String) (line : Nat) (args : List Val) : Emit :=
  if g.isInit then .backend .info (.args (g.mylog.appendCodeInfo file line args))
  else .stdout (fmtPrint args)

/-- src/logger.go:474-482, package-level Trace: gated on the singleton's level
being exactly TraceLevel. -/
def Trace (g : LoggerState) (file : String) (line : Nat) (args : List Val) : Emit :=
  if g.isInit then
    if g.mylog.level = TraceLevel then
      .backend .debug (.args (g.mylog.appendCodeInfo file line args))
    else .silent
  else .stdout (fmtPrintln args)

/-- src/logger.go:483-491, package-level Tracef. -/
def Tracef (g : LoggerState) (file : String) (line : Nat) (format : String)
    (args : List Val) : Emit :=
  if g.isInit then
    if g.mylog.level = TraceLevel then
      .backend .debug (.fmt (g.mylog.addCodeInfo file line format) args)
    else .silent
  else .stdout (sprintf (addCodeInfo file line format ++ "\r\n") args)

/-- src/logger.go:493-499, package-level Debug. -/
def Debug (g : LoggerState) (file : String) (line : Nat) (args : List Val) : Emit :=
  if g.isInit then .backend .debug (.args (g.mylog.appendCodeInfo file line args))
  else .stdout (fmtPrintln args)

/-- src/logger.go:500-506, package-level Debugf. -/
def Debugf (g : LoggerState) (file : String) (line : Nat) (format : String)
    (args : List Val) : Emit :=
  if g.isInit then .backend .debug (.fmt (g.mylog.addCodeInfo file line format) args)
  else .stdout (sprintf (addCodeInfo file line format ++ "\r\n") args)

/-- src/logger.go:507-513, package-level Info. -/
def Info (g : LoggerState) (file : String) (line : Nat) (args : List Val) : Emit :=
  if g.isInit then .backend .info (.args (g.mylog.appendCodeInfo file line args))
  else .stdout (fmtPrintln args)

/-- src/logger.go:514-520, package-level Infof. -/
def Infof (g : LoggerState) (file : String) (line : Nat) (format : String)
    (args : List Val) : Emit :=
  if g.isInit then .backend .info (.fmt (g.mylog.addCodeInfo file line format) args)
  else .stdout (sprintf (addCodeInfo file line format ++ "\r\n") args)

/-- src/logger.go:521-527, package-level Warn. -/
def Warn (g : LoggerState) (file : String) (line : Nat) (args : List Val) : Emit :=
  if g.isInit then .backend .warn (.args (g.mylog.appendCodeInfo file line args))
  else .stdout (fmtPrintln args)

/-- src/logger.go:528-534, package-level Warnf. -/
def Warnf (g : LoggerState) (file : String) (line : Nat) (format : String)
    (args : List Val) : Emit :=
  if g.isInit then .backend .warn (.fmt (g.mylog.addCodeInfo file line format) args)
  else .stdout (sprintf (addCodeInfo file line format ++ "\r\n") args)

/-- src/logger.go:535-541, package-level Panic. -/
def Panic (g : LoggerState) (file : String) (line : Nat) (args : List Val) : Emit :=
  if g.isInit then .backend .panic (.args (g.mylog.appendCodeInfo file line args))
  else .stdout (fmtPrintln args)

/-- src/logger.go:542-548, package-level Panicf. -/
def Panicf (g : LoggerState) (file : String) (line : Nat) (format : String)
    (args : List Val) : Emit :=
  if g.isInit then .backend .panic (.fmt (g.mylog.addCodeInfo file line format) args)
  else .stdout (sprintf (addCodeInfo file line format ++ "\r\n") args)

/-- src/logger.go:549-555, package-level Error. -/
def Error (g : LoggerState) (file : String) (line : Nat) (args : List Val) : Emit :=
  if g.isInit then .backend .error (.args (g.mylog.appendCodeInfo file line args))
  else .stdout (fmtPrintln args)

/-- src/logger.go:556-562, package-level Errorf. -/
def Errorf (g : LoggerState) (file : String) (line : Nat) (format : String)
    (args : List Val) : Emit :=
  if g.isInit then .backend .error (.fmt (g.mylog.addCodeInfo file line format) args)
  else .stdout (sprintf (addCodeInfo file line format ++ "\r\n") args)

/-- src/logger.go:563-569, package-level Fatal. -/
def Fatal (g : LoggerState) (file : String) (line : Nat) (args : List Val) : Emit :=
  if g.isInit then .backend .fatal (.args (g.mylog.appendCodeInfo file line args))
  else .stdout (fmtPrintln args)

/-- src/logger.go:570-576, package-level Fatalf. -/
def Fatalf (g : LoggerState) (file : String) (line : Nat) (format : String)
    (args : List Val) : Emit :=
  if g.isInit then .backend .fatal (.fmt (g.mylog.addCodeInfo file line format) args)
  else .stdout (sprintf (addCodeInfo file line format ++ "\r\n") args)

/-- A concrete backend value for test loggers. -/
def zl0 : ZapLogger := { names := [], attached := [], coreLevel := .info }

/-- A configured logger with the source-location flag off. -/
def plainLogger : MyLogger :=
  { log := zl0, level := InfoLevel, prefixChain := [], fields := [], codeLine := false }

/-- A configured logger with the source-location flag on. -/
def taggedLogger : MyLogger :=
  { log := zl0, level := InfoLevel, prefixChain := [], fields := [], codeLine := true }

/-- A configuration whose path "/tmp" the test filesystem reports accessible. -/
def cfgTmp : LoggerConfig :=
  { Level := "info", Path := "/tmp", LogName := "app", MaxSize := 0
    MaxBackups := 0, MaxAge := 0, EnableCompress := 0, CodeLine := 0 }

/-- A configuration with an unrecognized severity name. -/
def cfgBadLevel : LoggerConfig :=
  { Level := "verbose", Path := "/tmp", LogName := "app", MaxSize := 0
    MaxBackups := 0, MaxAge := 0, EnableCompress := 0, CodeLine := 0 }

/-- A configured logger carrying the single field a=1. -/
def fieldsLoggerA : MyLogger :=
  { log := zl0, level := InfoLevel, prefixChain := []
    fields := [("a", Val.str "1")], codeLine := false }

/-- Folding WithPrefix over a list of names appends them all to the prefix
chain. -/
theorem prefixChain_foldl (ns : List String) (l : MyLogger) :
    (ns.foldl MyLogger.WithPrefix l).prefixChain = l.prefixChain ++ ns := by
  induction ns generalizing l with
  | nil => simp
  | cons a tl ih =>
    simp only [List.foldl_cons, ih, MyLogger.WithPrefix, List.append_assoc,
      List.singleton_append]

/-- C1: the claim says that with the include-source-location flag disabled an
initialized logger passes message and format through unchanged; in fact the
flag-gated helpers return their zero values, so Infof forwards the empty
string in place of the caller's format template and Info forwards an empty
argument list in place of the caller's args. -/
theorem C1_disabled_flag_drops_payload :
    MyLogger.Infof plainLogger true "/app/main.go" 42 "hello %d" [Val.int 5]
        = Emit.backend Sev.info (Payload.fmt "" [Val.int 5])
      ∧ MyLogger.Info plainLogger true "/app/main.go" 42 [Val.str "hi"]
        = Emit.backend Sev.info (Payload.args [])
      ∧ ("" : String) ≠ "hello %d"
      ∧ ([] : List Val) ≠ [Val.str "hi"] := by
  refine ⟨rfl, rfl, by decide, by decide⟩

/-- C2: the claim says an inaccessible path is replaced by the working
directory with a warning and an accessible one is used verbatim; the code's
branch is inverted: the accessible path "/tmp" triggers the warning and the
stripped default ".", and the inaccessible "/data" is installed verbatim with
no warning. -/
theorem C2_path_check_inverted :
    resolveLogPath (fun p => p == "/tmp") "/tmp" = ⟨".", true⟩
      ∧ resolveLogPath (fun _ => false) "/data" = ⟨"/data", false⟩
      ∧ (InitLogger (fun p => p == "/tmp") cfgTmp).warned = true
      ∧ (InitLogger (fun p => p == "/tmp") cfgTmp).sink.Filename = "./app.log" := by
  refine ⟨by decide, by decide, rfl, by decide⟩

/-- C3: the claim says that with the include-source-location flag enabled
every emit call prepends a caller marker; the formatted variants do, but the
unformatted ones forward the original args with no marker because
appendCodeInfo's marker-prefixed slice is a dead store. -/
theorem C3_unformatted_marker_missing :
    MyLogger.Info taggedLogger true "/app/main.go" 10 [Val.str "x"]
        = Emit.backend Sev.info (Payload.args [Val.str "x"])
      ∧ Payload.args [Val.str "x"]
        ≠ Payload.args [Val.str "[main.go:10] ", Val.str "x"]
      ∧ MyLogger.Infof taggedLogger true "/app/main.go" 10 "boom" []
        = Emit.backend Sev.info (Payload.fmt "[main.go:10] boom" []) := by
  refine ⟨rfl, by decide, by decide⟩

/-- C4 counterexample: after InitLogger with the unrecognized severity
"verbose", GetLevel returns TraceLevel, not InfoLevel as claimed. -/
theorem C4_counterexample :
    (InitLogger (fun _ => false) cfgBadLevel).mylog.GetLevel = TraceLevel
      ∧ TraceLevel ≠ InfoLevel := by decide

/-- C4 amended: for every configuration whose severity string lowercases to
none of trace/debug/warn/info/error, InitLogger sets the backend core level
to Info but leaves the facade gating level at its initial TraceLevel, so
GetLevel returns TraceLevel. -/
theorem C4_unrecognized_level_defaults (fs : String → Bool) (cfg : LoggerConfig)
    (h : toLowerStr cfg.Level ∉ (["trace", "debug", "warn", "info", "error"] : List String)) :
    (InitLogger fs cfg).mylog.GetLevel = TraceLevel
      ∧ (InitLogger fs cfg).mylog.log.coreLevel = ZapLevel.info := by
  simp only [List.mem_cons, List.mem_singleton, not_or] at h
  obtain ⟨h1, h2, h3, h4, h5, -⟩ := h
  simp [InitLogger, setupLevels, MyLogger.GetLevel, h1, h2, h3, h4, h5]

theorem C4_unrecognized_level_defaults_witness :
    (InitLogger (fun _ => false) cfgBadLevel).mylog.GetLevel = TraceLevel
      ∧ (InitLogger (fun _ => false) cfgBadLevel).mylog.log.coreLevel = ZapLevel.info :=
  C4_unrecognized_level_defaults (fun _ => false) cfgBadLevel (by decide)

/-- C5 counterexample: merging the empty override set onto a = (x ↦ "1")
loses the key "x" that the claim requires to survive with a's value. -/
theorem C5_counterexample :
    Fields.lookup (Fields.WithFields [("x", Val.str "1")] []) "x" = none
      ∧ Fields.lookup [("x", Val.str "1")] "x" = some (Val.str "1") := by decide

/-- C5 amended: Fields.WithFields yields the override mapping itself - every
lookup agrees with b and no key of a absent from b survives; neither input is
mutated (the operation is pure). -/
theorem C5_merge_is_second_argument (a b : Fields) (k : String) :
    Fields.lookup (Fields.WithFields a b) k = Fields.lookup b k := rfl

/-- C6 counterexample: a child made by WithFields loses the parent's key "a"
that the claim requires to be preserved. -/
theorem C6_counterexample :
    Fields.lookup (fieldsLoggerA.WithFields [("b", Val.str "2")]).Fields "a" = none
      ∧ Fields.lookup fieldsLoggerA.Fields "a" = some (Val.str "1") := by decide

/-- C6 amended: WithFields installs exactly the supplied fields as the child's
field set, discarding the parent's rather than merging, so the spec's
chained-overwrite example still holds. -/
theorem C6_withfields_replaces (l : MyLogger) (f : Fields) (k : String) (v1 v2 : Val) :
    (l.WithFields f).Fields = f
      ∧ Fields.lookup ((l.WithFields [(k, v1)]).WithFields [(k, v2)]).Fields k
          = some v2 := by
  refine ⟨rfl, ?_⟩
  simp [MyLogger.WithFields, MyLogger.Fields, Fields.lookup]

/-- C7: after initialization Trace and Tracef, on an instance and at package
level, forward to the backend exactly when the configured gating level is
TraceLevel, and are silent at every other level. -/
theorem C7_trace_gated_on_exact_trace_level (l m : MyLogger) (file : String)
    (line : Nat) (args : List Val) (format : String) :
    ((l.Trace true file line args).isBackend = true ↔ l.GetLevel = TraceLevel)
      ∧ ((l.Tracef true file line format args).isBackend = true ↔ l.GetLevel = TraceLevel)
      ∧ (l.GetLevel ≠ TraceLevel →
          l.Trace true file line args = Emit.silent
            ∧ l.Tracef true file line format args = Emit.silent)
      ∧ ((Trace ⟨m, true⟩ file line args).isBackend = true ↔ m.GetLevel = TraceLevel)
      ∧ ((Tracef ⟨m, true⟩ file line format args).isBackend = true ↔ m.GetLevel = TraceLevel) := by
  constructor
  · by_cases h : l.level = TraceLevel <;>
      simp [MyLogger.Trace, MyLogger.GetLevel, Emit.isBackend, h]
  constructor
  · by_cases h : l.level = TraceLevel <;>
      simp [MyLogger.Tracef, MyLogger.GetLevel, Emit.isBackend, h]
  constructor
  · intro h
    simp only [MyLogger.GetLevel] at h
    simp [MyLogger.Trace, MyLogger.Tracef, h]
  constructor
  · by_cases h : m.level = TraceLevel <;>
      simp [Trace, MyLogger.GetLevel, Emit.isBackend, h]
  · by_cases h : m.level = TraceLevel <;>
      simp [Tracef, MyLogger.GetLevel, Emit.isBackend, h]

/-- C8 counterexample: before initialization the package-level Printf does not
preserve the caller's format string: the free addCodeInfo prepends a caller
marker, so Printf("x") writes "[main.go:7] x" plus CRLF instead of "x" plus a
line break. -/
theorem C8_counterexample :
    Printf ⟨plainLogger, false⟩ "/app/main.go" 7 "x" []
        = Emit.stdout "[main.go:7] x\r\n"
      ∧ ("[main.go:7] x\r\n" : String) ≠ "x\n"
      ∧ ("[main.go:7] x\r\n" : String) ≠ "x\r\n" := by decide

/-- C8 amended: before initialization no package-level call reaches the
backend or fails: the per-severity unformatted calls and Print write the
space-joined original arguments with a trailing newline - in particular
Info("x") writes exactly "x" plus a newline - while the formatted calls write
the printf-substitution of the original format with a "[file:line] " caller
marker prepended and a trailing CRLF, and Println writes the arguments with
no trailing line break. -/
theorem C8_preinit_fallback (m : MyLogger) (file : String) (line : Nat)
    (args : List Val) (format : String) :
    Print ⟨m, false⟩ file line args = Emit.stdout (fmtPrintln args)
      ∧ Trace ⟨m, false⟩ file line args = Emit.stdout (fmtPrintln args)
      ∧ Debug ⟨m, false⟩ file line args = Emit.stdout (fmtPrintln args)
      ∧ Info ⟨m, false⟩ file line args = Emit.stdout (fmtPrintln args)
      ∧ Warn ⟨m, false⟩ file line args = Emit.stdout (fmtPrintln args)
      ∧ Error ⟨m, false⟩ file line args = Emit.stdout (fmtPrintln args)
      ∧ Fatal ⟨m, false⟩ file line args = Emit.stdout (fmtPrintln args)
      ∧ Panic ⟨m, false⟩ file line args = Emit.stdout (fmtPrintln args)
      ∧ Info ⟨m, false⟩ file line [Val.str "x"] = Emit.stdout "x\n"
      ∧ Printf ⟨m, false⟩ file line format args
          = Emit.stdout (sprintf ((codeMarker file line ++ format) ++ "\r\n") args)
      ∧ Tracef ⟨m, false⟩ file line format args
          = Emit.stdout (sprintf ((codeMarker file line ++ format) ++ "\r\n") args)
      ∧ Debugf ⟨m, false⟩ file line format args
          = Emit.stdout (sprintf ((codeMarker file line ++ format) ++ "\r\n") args)
      ∧ Infof ⟨m, false⟩ file line format args
          = Emit.stdout (sprintf ((codeMarker file line ++ format) ++ "\r\n") args)
      ∧ Warnf ⟨m, false⟩ file line format args
          = Emit.stdout (sprintf ((codeMarker file line ++ format) ++ "\r\n") args)
      ∧ Errorf ⟨m, false⟩ file line format args
          = Emit.stdout (sprintf ((codeMarker file line ++ format) ++ "\r\n") args)
      ∧ Fatalf ⟨m, false⟩ file line format args
          = Emit.stdout (sprintf ((codeMarker file line ++ format) ++ "\r\n") args)
      ∧ Panicf ⟨m, false⟩ file line format args
          = Emit.stdout (sprintf ((codeMarker file line ++ format) ++ "\r\n") args)
      ∧ Println ⟨m, false⟩ file line args = Emit.stdout (fmtPrint args) :=
  ⟨rfl, rfl, rfl, rfl, rfl, rfl, rfl, rfl, rfl, rfl, rfl, rfl, rfl, rfl,
    rfl, rfl, rfl, rfl⟩

/-- C9 counterexample: after WithSection the child's field set has no
"section" key, although the claim requires Fields()["section"] to be the
section name; the tag went only to the backend attributes. -/
theorem C9_counterexample :
    Fields.lookup (plainLogger.WithSection "db").Fields "section" = none
      ∧ (plainLogger.WithSection "db").log.attached = [("section", Val.str "db")] := by
  decide

/-- C9 amended: WithSection tags the backend with a section attribute but
leaves the child's Fields identical to the parent's - no "section" key is
merged into the field set - the parent value is unchanged, and Section always
returns the empty string. -/
theorem C9_withsection_fields_unchanged (l : MyLogger) (s : String) :
    (l.WithSection s).Fields = l.Fields
      ∧ (l.WithSection s).log.attached = l.log.attached ++ [("section", Val.str s)]
      ∧ (l.WithSection s).Section = "" :=
  ⟨rfl, rfl, rfl⟩

/-- C10: from an empty prefix chain, WithPrefix "a" then WithPrefix "b" gives
Prefix "a.b"; in general Prefix after a chain of WithPrefix calls is the
dot-joined sequence of the names passed, and the empty string when none was
set. -/
theorem C10_prefix_chain (l : MyLogger) (a b : String) (ns : List String)
    (h : l.prefixChain = []) :
    ((l.WithPrefix a).WithPrefix b).Prefix = a ++ "." ++ b
      ∧ (ns.foldl MyLogger.WithPrefix l).Prefix = stringsJoin ns "."
      ∧ l.Prefix = "" := by
  refine ⟨?_, ?_, ?_⟩
  · simp [MyLogger.WithPrefix, MyLogger.Prefix, h, stringsJoin]
  · rw [MyLogger.Prefix, prefixChain_foldl, h, List.nil_append]
  · simp [MyLogger.Prefix, h, stringsJoin]

theorem C10_prefix_chain_witness :
    ((plainLogger.WithPrefix "a").WithPrefix "b").Prefix = "a" ++ "." ++ "b"
      ∧ ((["a", "b"] : List String).foldl MyLogger.WithPrefix plainLogger).Prefix
          = stringsJoin ["a", "b"] "."
      ∧ plainLogger.Prefix = "" :=
  C10_prefix_chain plainLogger "a" "b" ["a", "b"] rfl

end Logger

